import Mathlib

/-!
Shallow embedding of `win-service-logger` (src/src/lib.rs), a `log`-facade
backend that writes records to the Windows event log via
`RegisterEventSourceA` / `ReportEventW` / `DeregisterEventSource`.

OS calls are modelled as an explicit trace of `OsCall` values; the OS handle
that `RegisterEventSourceA` would return is passed in as a parameter
(`osHandle`), since the OS is an opaque external collaborator.  Rust panics
(`unwrap` on `CString::new` and `U16CString::from_str`) are modelled with
`Except PanicReason`.
-/

namespace WinServiceLogger

/-- `winapi::um::winnt::HANDLE`, an opaque pointer; `0` models `null_mut()`. -/
abbrev HANDLE := Nat

/-- `std::ptr::null_mut()` as a `HANDLE`. -/
def nullHandle : HANDLE := 0

/-- `log::Level` from the `log` crate (external facade, consumed by the code). -/
inductive Level
  | Error
  | Warn
  | Info
  | Debug
  | Trace
deriving DecidableEq, Repr

/-- The `log` crate's discriminant order: `Error = 1 < Warn < Info < Debug < Trace = 5`.
`a <= b` on `log::Level` compares these discriminants. -/
def Level.severity : Level → Nat
  | .Error => 1
  | .Warn => 2
  | .Info => 3
  | .Debug => 4
  | .Trace => 5

/-- `Display` for `log::Level` (the crate's `LOG_LEVEL_NAMES`): upper-case names. -/
def Level.asStr : Level → String
  | .Error => "ERROR"
  | .Warn => "WARN"
  | .Info => "INFO"
  | .Debug => "DEBUG"
  | .Trace => "TRACE"

/-- `log::Metadata`: the part the code reads is the level. -/
structure Metadata where
  level : Level
deriving DecidableEq, Repr

/-- `log::Record`: level, optional source location, and the message
(`record.args()` rendered to a string). -/
structure Record where
  level : Level
  file : Option String
  line : Option Nat
  msg : String
deriving DecidableEq, Repr

/-- `record.metadata()`. -/
def Record.metadata (r : Record) : Metadata := { level := r.level }

/-- `winapi::um::winnt::EVENTLOG_ERROR_TYPE`. -/
def EVENTLOG_ERROR_TYPE : Nat := 1

/-- `winapi::um::winnt::EVENTLOG_WARNING_TYPE`. -/
def EVENTLOG_WARNING_TYPE : Nat := 2

/-- `winapi::um::winnt::EVENTLOG_INFORMATION_TYPE`. -/
def EVENTLOG_INFORMATION_TYPE : Nat := 4

/-- The `match record.metadata().level()` table in `Logger::log`
(src/src/lib.rs lines 122-128). -/
def eventTypeFor : Level → Nat
  | .Trace => EVENTLOG_INFORMATION_TYPE
  | .Debug => EVENTLOG_INFORMATION_TYPE
  | .Info => EVENTLOG_INFORMATION_TYPE
  | .Warn => EVENTLOG_WARNING_TYPE
  | .Error => EVENTLOG_ERROR_TYPE

/-- One call into the Windows event-log API, recorded as a trace element. -/
inductive OsCall
  | registerEventSource (name : String)
  | reportEvent (handle : HANDLE) (eventType : Nat) (line : String)
  | deregisterEventSource (handle : HANDLE)
deriving DecidableEq, Repr

/-- Reasons `Logger::log` panics: `CString::new(self.log_name).unwrap()` fails on
an interior NUL in the source name; `U16CString::from_str(msg).unwrap()` fails on
an interior NUL in the formatted message. -/
inductive PanicReason
  | nulInLogName
  | nulInMessage
deriving DecidableEq, Repr

/-- Does the string contain a NUL character?  `CString::new` and
`U16CString::from_str` fail exactly on such inputs. -/
def hasNulChar (s : String) : Bool :=
  s.toList.any fun c => c = Char.ofNat 0

/-- `pub struct Logger`: the `UnsafeCell<HANDLE>` is the `handle` field, the
`Once` is modelled by the boolean `handle_init` (has `call_once` completed),
and `log_name` is the `&'static str` source name. -/
structure LoggerState where
  handle : HANDLE
  handle_init : Bool
  log_name : String
deriving DecidableEq, Repr

/-- `Logger::new(log_name)` (const fn): null handle, fresh `Once`, stores the name. -/
def Logger.new (log_name : String) : LoggerState :=
  { handle := nullHandle, handle_init := false, log_name := log_name }

/-- `pub static LOGGER: Logger = Logger::new("Rust Application");`. -/
def LOGGER : LoggerState := Logger.new "Rust Application"

/-- `Logger::enabled`: `metadata.level() <= Level::Debug` in the `log` crate's
discriminant order. -/
def Logger.enabled (m : Metadata) : Bool :=
  m.level.severity ≤ Level.Debug.severity

/-- The `format!` call in `Logger::log` (src/src/lib.rs lines 114-120):
file or a fixed placeholder, then the line or 0 in parentheses, a colon,
the upper-case level, a dash, and the message. -/
def formatMsg (r : Record) : String :=
  (r.file.getD "<unknown>") ++ "(" ++ toString (r.line.getD 0) ++ "): "
    ++ r.level.asStr ++ " - " ++ r.msg

/-- `Logger::log`.  `osHandle` is the handle `RegisterEventSourceA` would return
(possibly `nullHandle`: the code stores and uses it regardless).  Returns the
updated logger state and the trace of OS calls, or the panic that `unwrap`
would raise.  The order matches the source: `call_once` (name conversion, then
registration, then the handle store) runs first, then the message is formatted,
then the wide-string conversion, then `ReportEventW` on the handle read from
the cell. -/
def Logger.log (s : LoggerState) (osHandle : HANDLE) (r : Record) :
    Except PanicReason (LoggerState × List OsCall) :=
  if Logger.enabled r.metadata then
    match
      (if s.handle_init then
        Except.ok (s, ([] : List OsCall))
      else if hasNulChar s.log_name then
        Except.error PanicReason.nulInLogName
      else
        Except.ok ({ s with handle := osHandle, handle_init := true },
          [OsCall.registerEventSource s.log_name])) with
    | Except.error e => Except.error e
    | Except.ok (s1, initCalls) =>
      let msg := formatMsg r
      if hasNulChar msg then
        Except.error PanicReason.nulInMessage
      else
        Except.ok (s1, initCalls
          ++ [OsCall.reportEvent s1.handle (eventTypeFor r.level) msg])
  else
    Except.ok (s, [])

/-- `Logger::flush`: empty body, no state change, no OS call. -/
def Logger.flush (s : LoggerState) : LoggerState × List OsCall := (s, [])

/-- `impl Drop for Logger` (src/src/lib.rs lines 161-167): reads the handle
(null if never initialized) and unconditionally calls `DeregisterEventSource`. -/
def Logger.drop (s : LoggerState) : List OsCall :=
  [OsCall.deregisterEventSource s.handle]

/-- Number of `DeregisterEventSource` calls in a trace. -/
def countDereg (calls : List OsCall) : Nat :=
  (calls.filter fun c =>
    match c with
    | OsCall.deregisterEventSource _ => true
    | _ => false).length

/-! ### The log facade's global installation state

The crate calls `log::set_logger` and `log::set_max_level`; those live in the
external `log` crate.  Modelled from the spec: a registration function to
install a backend that fails if one is already installed, and a global
severity-filter setter. -/

/-- `log::LevelFilter`. -/
inductive LevelFilter
  | Off
  | Error
  | Warn
  | Info
  | Debug
  | Trace
deriving DecidableEq, Repr

/-- `log::SetLoggerError`. -/
inductive SetLoggerError
  | alreadySet
deriving DecidableEq, Repr

/-- The facade's process-wide state: the installed backend (if any) and the
global maximum level filter. -/
structure FacadeState where
  activeLogger : Option LoggerState
  maxLevel : LevelFilter
deriving DecidableEq, Repr

/-- Modelled from the spec: `log::set_logger` installs the backend only when
none is installed yet; a second attempt returns the already-installed error
and leaves the first backend in place. -/
def setLogger (g : FacadeState) (l : LoggerState) :
    FacadeState × Option SetLoggerError :=
  match g.activeLogger with
  | some _ => (g, some SetLoggerError.alreadySet)
  | none => ({ g with activeLogger := some l }, none)

/-- Modelled from the spec: `log::set_max_level` sets the global filter. -/
def setMaxLevel (g : FacadeState) (f : LevelFilter) : FacadeState :=
  { g with maxLevel := f }

/-- `try_init`: `log::set_logger(&LOGGER).map(|()| log::set_max_level(Debug))`. -/
def try_init (g : FacadeState) : FacadeState × Option SetLoggerError :=
  match setLogger g LOGGER with
  | (g1, none) => (setMaxLevel g1 LevelFilter.Debug, none)
  | (g1, some e) => (g1, some e)

/-- `try_init_with_name`: leaks a fresh `Logger::new(name)` and installs it. -/
def try_init_with_name (g : FacadeState) (name : String) :
    FacadeState × Option SetLoggerError :=
  match setLogger g (Logger.new name) with
  | (g1, none) => (setMaxLevel g1 LevelFilter.Debug, none)
  | (g1, some e) => (g1, some e)

/-- `init`: `try_init().unwrap()` — the error becomes a panic, modelled as
`Except.error`. -/
def init (g : FacadeState) : Except SetLoggerError FacadeState :=
  match try_init g with
  | (g1, none) => Except.ok g1
  | (_, some e) => Except.error e

/-- `init_with_name`: like `init` but with a caller-chosen source name. -/
def init_with_name (g : FacadeState) (name : String) :
    Except SetLoggerError FacadeState :=
  match try_init_with_name g name with
  | (g1, none) => Except.ok g1
  | (_, some e) => Except.error e

/-! ### Interleaving model of the `Once`-guarded lazy initialization

`Logger::log` lines 101-113: `self.handle_init.call_once(|| { CString::new;
RegisterEventSourceA; *self.handle.get() = handle })`, followed by the read
`unsafe { *self.handle.get() }`.  We model N threads (indexed by `Nat`) each
executing that fragment under a sequentially consistent interleaving, with
`std::sync::Once` as its three-phase state machine: a thread entering
`call_once` either wins the incomplete cell (and becomes the unique runner of
the closure), blocks while another thread runs it, or passes straight through
once it is complete.  `initRuns` counts executions of the closure body (the
name-to-C-string conversion plus the `RegisterEventSourceA` call plus the
handle store); `initOwner` records which thread ran it. -/

/-- Program counter of one thread in the `log` fragment. -/
inductive ThreadPC
  | start
  | inInit
  | afterOnce
  | pastInit (h : HANDLE)
deriving DecidableEq, Repr

/-- State of the `Once` cell. -/
inductive OnceState
  | incomplete
  | running (owner : Nat)
  | complete
deriving DecidableEq, Repr

/-- Shared state of the machine: the `Once`, the `UnsafeCell<HANDLE>`, the
closure-execution count and owner, and every thread's program counter. -/
structure MState where
  once : OnceState
  handle : HANDLE
  initRuns : Nat
  initOwner : Option Nat
  pcs : Nat → ThreadPC

/-- Initial state: fresh `Once`, null handle, every thread about to call
`call_once` (its record's level already found enabled). -/
def initMState : MState :=
  { once := OnceState.incomplete
    handle := nullHandle
    initRuns := 0
    initOwner := none
    pcs := fun _ => ThreadPC.start }

/-- One interleaving step, parametrized by the handle the OS registration
returns.  `enter` wins the incomplete `Once`; `runBody` executes the closure
(conversion, registration, handle store) and completes the `Once`; `skip`
passes through an already-complete `Once`; `read` is the subsequent
`unsafe { *self.handle.get() }`.  A thread at `start` while the `Once` is
`running` by another thread has no step: `call_once` blocks it. -/
inductive MStep (osHandle : HANDLE) : MState → MState → Prop
  | enter (t : Nat) (s : MState)
      (hpc : s.pcs t = ThreadPC.start) (ho : s.once = OnceState.incomplete) :
      MStep osHandle s
        { s with once := OnceState.running t
                 pcs := Function.update s.pcs t ThreadPC.inInit }
  | runBody (t : Nat) (s : MState)
      (hpc : s.pcs t = ThreadPC.inInit) (ho : s.once = OnceState.running t) :
      MStep osHandle s
        { s with once := OnceState.complete
                 handle := osHandle
                 initRuns := s.initRuns + 1
                 initOwner := some t
                 pcs := Function.update s.pcs t ThreadPC.afterOnce }
  | skip (t : Nat) (s : MState)
      (hpc : s.pcs t = ThreadPC.start) (ho : s.once = OnceState.complete) :
      MStep osHandle s
        { s with pcs := Function.update s.pcs t ThreadPC.afterOnce }
  | read (t : Nat) (s : MState)
      (hpc : s.pcs t = ThreadPC.afterOnce) :
      MStep osHandle s
        { s with pcs := Function.update s.pcs t (ThreadPC.pastInit s.handle) }

/-- Reachability from the initial state. -/
inductive MReach (osHandle : HANDLE) : MState → Prop
  | refl : MReach osHandle initMState
  | step {s s1 : MState} : MReach osHandle s → MStep osHandle s s1 →
      MReach osHandle s1

/-- The machine invariant: the closure runs at most once; the run count and
the owner agree; completion pins the handle to the registered value; a thread
past `call_once` implies completion; and a thread that has read the handle
read the fully initialized value. -/
def MInv (osHandle : HANDLE) (s : MState) : Prop :=
  s.initRuns ≤ 1 ∧
  (s.initRuns = 0 ↔ s.initOwner = none) ∧
  (s.once = OnceState.complete → s.initRuns = 1 ∧ s.handle = osHandle) ∧
  (s.once = OnceState.incomplete → s.initRuns = 0 ∧ s.handle = nullHandle) ∧
  (∀ t, s.once = OnceState.running t →
    s.initRuns = 0 ∧ s.pcs t = ThreadPC.inInit) ∧
  (∀ t, s.pcs t = ThreadPC.afterOnce → s.once = OnceState.complete) ∧
  (∀ t h, s.pcs t = ThreadPC.pastInit h → s.once = OnceState.complete) ∧
  (∀ t h, s.pcs t = ThreadPC.pastInit h → h = osHandle ∧ s.initRuns = 1)

/-- Demo trace, step 1: thread 0 wins the incomplete `Once`. -/
def mDemo1 : MState :=
  { initMState with
      once := OnceState.running 0
      pcs := Function.update initMState.pcs 0 ThreadPC.inInit }

/-- Demo trace, step 2: thread 0 runs the closure; the OS returns handle 7. -/
def mDemo2 : MState :=
  { mDemo1 with
      once := OnceState.complete
      handle := 7
      initRuns := mDemo1.initRuns + 1
      initOwner := some 0
      pcs := Function.update mDemo1.pcs 0 ThreadPC.afterOnce }

/-- Demo trace, step 3: thread 0 reads the handle. -/
def mDemo3 : MState :=
  { mDemo2 with
      pcs := Function.update mDemo2.pcs 0 (ThreadPC.pastInit mDemo2.handle) }

/-- Demo trace, step 4: thread 1 passes through the complete `Once`. -/
def mDemo4 : MState :=
  { mDemo3 with pcs := Function.update mDemo3.pcs 1 ThreadPC.afterOnce }

/-- Demo trace, step 5: thread 1 reads the handle. -/
def mDemo5 : MState :=
  { mDemo4 with
      pcs := Function.update mDemo4.pcs 1 (ThreadPC.pastInit mDemo4.handle) }

/-- Case split for reading an updated program-counter map. -/
theorem pcs_update_cases {f : Nat → ThreadPC} {t u : Nat} {p q : ThreadPC}
    (h : Function.update f t p u = q) : (u = t ∧ p = q) ∨ (u ≠ t ∧ f u = q) := by
  by_cases hut : u = t
  · subst hut
    exact Or.inl ⟨rfl, by simpa [Function.update_same] using h⟩
  · exact Or.inr ⟨hut, by simpa [Function.update_noteq hut] using h⟩

/-- The initial state satisfies the machine invariant. -/
theorem minv_initial (osHandle : HANDLE) : MInv osHandle initMState := by
  simp [MInv, initMState]

/-- `MInv` is preserved by every interleaving step. -/
theorem minv_step {osHandle : HANDLE} {s s1 : MState}
    (hs : MInv osHandle s) (hstep : MStep osHandle s s1) : MInv osHandle s1 := by
  obtain ⟨i1, i2, i3, i4, i5, i6, i7, i8⟩ := hs
  cases hstep with
  | enter t s hpc ho =>
    obtain ⟨hr0, hh0⟩ := i4 ho
    refine ⟨i1, i2, ?_, ?_, ?_, ?_, ?_, ?_⟩
    · intro hc; simp at hc
    · intro hc; simp at hc
    · intro u hu
      simp only [OnceState.running.injEq] at hu
      subst hu
      exact ⟨hr0, by simp [Function.update_same]⟩
    · intro u hu
      rcases pcs_update_cases hu with ⟨rfl, hpq⟩ | ⟨hne, hfu⟩
      · simp at hpq
      · have hc := i6 u hfu
        rw [ho] at hc
        simp at hc
    · intro u hv hu
      rcases pcs_update_cases hu with ⟨rfl, hpq⟩ | ⟨hne, hfu⟩
      · simp at hpq
      · have hc := i7 u hv hfu
        rw [ho] at hc
        simp at hc
    · intro u hv hu
      rcases pcs_update_cases hu with ⟨rfl, hpq⟩ | ⟨hne, hfu⟩
      · simp at hpq
      · have hc := i7 u hv hfu
        rw [ho] at hc
        simp at hc
  | runBody t s hpc ho =>
    obtain ⟨hr0, hinr⟩ := i5 t ho
    refine ⟨?_, ?_, ?_, ?_, ?_, ?_, ?_, ?_⟩
    · show s.initRuns + 1 ≤ 1
      omega
    · simp
    · intro _
      refine ⟨?_, rfl⟩
      show s.initRuns + 1 = 1
      omega
    · intro hc; simp at hc
    · intro u hu; simp at hu
    · intro u hu
      rfl
    · intro u hv hu
      rfl
    · intro u hv hu
      rcases pcs_update_cases hu with ⟨rfl, hpq⟩ | ⟨hne, hfu⟩
      · simp at hpq
      · have hc := i7 u hv hfu
        rw [ho] at hc
        simp at hc
  | skip t s hpc ho =>
    obtain ⟨hr1, hhos⟩ := i3 ho
    refine ⟨i1, i2, i3, ?_, ?_, ?_, ?_, ?_⟩
    · intro hc
      rw [ho] at hc
      simp at hc
    · intro u hu
      rw [ho] at hu
      simp at hu
    · intro u hu
      exact ho
    · intro u hv hu
      exact ho
    · intro u hv hu
      rcases pcs_update_cases hu with ⟨rfl, hpq⟩ | ⟨hne, hfu⟩
      · simp at hpq
      · exact i8 u hv hfu
  | read t s hpc =>
    have hco := i6 t hpc
    obtain ⟨hr1, hhos⟩ := i3 hco
    refine ⟨i1, i2, i3, ?_, ?_, ?_, ?_, ?_⟩
    · intro hc
      rw [hco] at hc
      simp at hc
    · intro u hu
      rw [hco] at hu
      simp at hu
    · intro u hu
      rcases pcs_update_cases hu with ⟨rfl, hpq⟩ | ⟨hne, hfu⟩
      · simp at hpq
      · exact i6 u hfu
    · intro u hv hu
      rcases pcs_update_cases hu with ⟨rfl, hpq⟩ | ⟨hne, hfu⟩
      · exact hco
      · exact i7 u hv hfu
    · intro u hv hu
      rcases pcs_update_cases hu with ⟨rfl, hpq⟩ | ⟨hne, hfu⟩
      · have : hv = s.handle := by
          cases hpq
          rfl
        rw [this]
        exact ⟨hhos, hr1⟩
      · exact i8 u hv hfu

/-- Every reachable state satisfies the machine invariant. -/
theorem minv_reach {osHandle : HANDLE} {s : MState} (h : MReach osHandle s) :
    MInv osHandle s := by
  induction h with
  | refl => exact minv_initial osHandle
  | step hr hst ih => exact minv_step ih hst

/-- Exhaustive characterization of `Logger.log`: disabled record, already
initialized (report only), first enabled call (register then report), panic on
a NUL in the source name, or panic on a NUL in the formatted message. -/
theorem log_cases (s : LoggerState) (osHandle : HANDLE) (r : Record) :
    (Logger.enabled r.metadata = false ∧
      Logger.log s osHandle r = Except.ok (s, [])) ∨
    (Logger.enabled r.metadata = true ∧ s.handle_init = true ∧
      hasNulChar (formatMsg r) = false ∧
      Logger.log s osHandle r = Except.ok (s,
        [OsCall.reportEvent s.handle (eventTypeFor r.level) (formatMsg r)])) ∨
    (Logger.enabled r.metadata = true ∧ s.handle_init = false ∧
      hasNulChar s.log_name = false ∧ hasNulChar (formatMsg r) = false ∧
      Logger.log s osHandle r = Except.ok
        ({ s with handle := osHandle, handle_init := true },
         [OsCall.registerEventSource s.log_name,
          OsCall.reportEvent osHandle (eventTypeFor r.level) (formatMsg r)])) ∨
    (Logger.enabled r.metadata = true ∧ s.handle_init = false ∧
      hasNulChar s.log_name = true ∧
      Logger.log s osHandle r = Except.error PanicReason.nulInLogName) ∨
    (Logger.enabled r.metadata = true ∧
      (s.handle_init = true ∨ hasNulChar s.log_name = false) ∧
      hasNulChar (formatMsg r) = true ∧
      Logger.log s osHandle r = Except.error PanicReason.nulInMessage) := by
  cases he : Logger.enabled r.metadata with
  | false => exact Or.inl ⟨rfl, by simp [Logger.log, he]⟩
  | true =>
    cases hi : s.handle_init with
    | true =>
      cases hm : hasNulChar (formatMsg r) with
      | false =>
        refine Or.inr (Or.inl ⟨rfl, rfl, rfl, ?_⟩)
        simp [Logger.log, he, hi, hm]
      | true =>
        refine Or.inr (Or.inr (Or.inr (Or.inr ⟨rfl, Or.inl rfl, rfl, ?_⟩)))
        simp [Logger.log, he, hi, hm]
    | false =>
      cases hn : hasNulChar s.log_name with
      | true =>
        refine Or.inr (Or.inr (Or.inr (Or.inl ⟨rfl, rfl, rfl, ?_⟩)))
        simp [Logger.log, he, hi, hn]
      | false =>
        cases hm : hasNulChar (formatMsg r) with
        | false =>
          refine Or.inr (Or.inr (Or.inl ⟨rfl, rfl, rfl, rfl, ?_⟩))
          simp [Logger.log, he, hi, hn, hm]
        | true =>
          refine Or.inr (Or.inr (Or.inr (Or.inr ⟨rfl, Or.inr rfl, rfl, ?_⟩)))
          simp [Logger.log, he, hi, hn, hm]

/-- C1 counterexample: a Logger whose handle was never initialized (fresh
`Logger::new`, no log call made) still performs a deregistration call on
destruction — the drop path calls `DeregisterEventSource` once, not zero
times, so the claim as stated is false. -/
theorem drop_uninitialized_still_deregisters :
    countDereg (Logger.drop (Logger.new "Rust Application")) ≠ 0 := by
  decide

/-- C1 (amended): destruction performs exactly one deregistration call
unconditionally; for a sink whose handle was never initialized the null
handle is the argument passed to `DeregisterEventSource`. -/
theorem drop_always_one_dereg (s : LoggerState) :
    Logger.drop s = [OsCall.deregisterEventSource s.handle] ∧
    countDereg (Logger.drop s) = 1 ∧
    (∀ n, Logger.drop (Logger.new n) =
      [OsCall.deregisterEventSource nullHandle]) :=
  ⟨rfl, rfl, fun _ => rfl⟩

/-- C3: `enabled` returns true exactly for Debug, Info, Warn and Error, and
false for Trace; it is a pure function of the metadata (no lock, no OS call in
the embedding). -/
theorem enabled_iff_debug_or_more_severe (m : Metadata) :
    (Logger.enabled m = true ↔
      (m.level = Level.Debug ∨ m.level = Level.Info ∨ m.level = Level.Warn ∨
        m.level = Level.Error)) ∧
    Logger.enabled { level := Level.Trace } = false := by
  refine ⟨?_, by decide⟩
  obtain ⟨l⟩ := m
  cases l <;> decide

/-- C4: a record whose level is not enabled makes `log` return immediately:
no panic, no state change, and an empty OS-call trace (in particular no
registration and no report). -/
theorem log_disabled_no_side_effects (s : LoggerState) (osHandle : HANDLE)
    (r : Record) (h : Logger.enabled r.metadata = false) :
    Logger.log s osHandle r = Except.ok (s, []) := by
  simp [Logger.log, h]

/-- C4 witness: a Trace-level record (whose message even contains a NUL, which
would panic the enabled path) is dropped with no side effects. -/
theorem log_disabled_no_side_effects_witness :
    Logger.log LOGGER 7
      { level := Level.Trace, file := none, line := none,
        msg := String.mk [Char.ofNat 0] } = Except.ok (LOGGER, []) :=
  log_disabled_no_side_effects LOGGER 7
    { level := Level.Trace, file := none, line := none,
      msg := String.mk [Char.ofNat 0] } (by decide)

/-- C6: the level-to-event-type mapping is total and fixed: Trace, Debug and
Info map to `EVENTLOG_INFORMATION_TYPE`, Warn to `EVENTLOG_WARNING_TYPE`,
Error to `EVENTLOG_ERROR_TYPE`. -/
theorem event_type_table_total_fixed :
    eventTypeFor Level.Trace = EVENTLOG_INFORMATION_TYPE ∧
    eventTypeFor Level.Debug = EVENTLOG_INFORMATION_TYPE ∧
    eventTypeFor Level.Info = EVENTLOG_INFORMATION_TYPE ∧
    eventTypeFor Level.Warn = EVENTLOG_WARNING_TYPE ∧
    eventTypeFor Level.Error = EVENTLOG_ERROR_TYPE ∧
    (∀ l, eventTypeFor l = EVENTLOG_INFORMATION_TYPE ∨
      eventTypeFor l = EVENTLOG_WARNING_TYPE ∨
      eventTypeFor l = EVENTLOG_ERROR_TYPE) := by
  refine ⟨rfl, rfl, rfl, rfl, rfl, ?_⟩
  intro l
  cases l <;> simp [eventTypeFor]

/-- C10: the global `LOGGER` is `Logger::new("Rust Application")`, and
`Logger::new` is a pure constructor: it stores exactly the given name, leaves
the handle null, and leaves the `Once` guard in its never-run state (no OS
call appears in any trace at construction time). -/
theorem logger_new_const_and_global :
    LOGGER = Logger.new "Rust Application" ∧
    LOGGER.log_name = "Rust Application" ∧
    LOGGER.handle = nullHandle ∧
    LOGGER.handle_init = false ∧
    (∀ n, (Logger.new n).log_name = n ∧ (Logger.new n).handle = nullHandle ∧
      (Logger.new n).handle_init = false) :=
  ⟨rfl, rfl, rfl, rfl, fun _ => ⟨rfl, rfl, rfl⟩⟩

/-- C5: every enabled record that `log` submits to the OS is rendered as
file (or the placeholder) then the line (or 0) in parentheses, a colon, the
upper-case level, a dash, and the message; the two spec examples render as
stated. -/
theorem log_report_line_format (s : LoggerState) (osHandle : HANDLE)
    (r : Record) (s1 : LoggerState) (calls : List OsCall)
    (h : Logger.log s osHandle r = Except.ok (s1, calls))
    (he : Logger.enabled r.metadata = true) :
    calls.getLast? = some (OsCall.reportEvent s1.handle (eventTypeFor r.level)
      ((r.file.getD "<unknown>") ++ "(" ++ toString (r.line.getD 0) ++ "): "
        ++ r.level.asStr ++ " - " ++ r.msg)) ∧
    formatMsg
      { level := Level.Warn, file := some "app.rs", line := some 42,
        msg := "disk low" } = "app.rs(42): WARN - disk low" ∧
    formatMsg
      { level := Level.Error, file := none, line := none,
        msg := "boom" } = "<unknown>(0): ERROR - boom" := by
  refine ⟨?_, by decide, by decide⟩
  rcases log_cases s osHandle r with ⟨he1, hl⟩ | ⟨he1, hi, hm, hl⟩ |
      ⟨he1, hi, hn, hm, hl⟩ | ⟨he1, hi, hn, hl⟩ | ⟨he1, hd, hm, hl⟩ <;>
    rw [hl] at h
  · rw [he1] at he
    exact Bool.noConfusion he
  · simp only [Except.ok.injEq, Prod.mk.injEq] at h
    obtain ⟨hs1, hcalls⟩ := h
    subst hs1
    subst hcalls
    simp [formatMsg]
  · simp only [Except.ok.injEq, Prod.mk.injEq] at h
    obtain ⟨hs1, hcalls⟩ := h
    subst hs1
    subst hcalls
    simp [formatMsg]
  · exact Except.noConfusion h
  · exact Except.noConfusion h

/-- C5 witness: logging a Warn record with file app.rs and line 42 through a
fresh logger renders the spec's example line. -/
theorem log_report_line_format_witness :
    formatMsg
      { level := Level.Warn, file := some "app.rs", line := some 42,
        msg := "disk low" } = "app.rs(42): WARN - disk low" :=
  (log_report_line_format LOGGER 7
    { level := Level.Warn, file := some "app.rs", line := some 42,
      msg := "disk low" }
    { handle := 7, handle_init := true, log_name := "Rust Application" }
    [OsCall.registerEventSource "Rust Application",
     OsCall.reportEvent 7 (eventTypeFor Level.Warn)
       "app.rs(42): WARN - disk low"]
    (by rfl) (by decide)).2.1

/-- C7: with a backend already installed, `try_init` and `try_init_with_name`
return the already-set error and leave the installed backend unchanged, while
`init` and `init_with_name` turn that error into a panic; on a fresh process
state the first installation succeeds and raises the max level to Debug. -/
theorem install_second_attempt_fails (g : FacadeState) (l0 : LoggerState)
    (n : String) (h : g.activeLogger = some l0) :
    try_init g = (g, some SetLoggerError.alreadySet) ∧
    try_init_with_name g n = (g, some SetLoggerError.alreadySet) ∧
    init g = Except.error SetLoggerError.alreadySet ∧
    init_with_name g n = Except.error SetLoggerError.alreadySet ∧
    (try_init g).1.activeLogger = some l0 ∧
    (try_init_with_name g n).1.activeLogger = some l0 ∧
    (∀ g1 : FacadeState, g1.activeLogger = none →
      (try_init g1).2 = none ∧ (try_init g1).1.activeLogger = some LOGGER ∧
      (try_init g1).1.maxLevel = LevelFilter.Debug ∧
      (try_init_with_name g1 n).2 = none ∧
      (try_init_with_name g1 n).1.activeLogger = some (Logger.new n) ∧
      (try_init_with_name g1 n).1.maxLevel = LevelFilter.Debug ∧
      init g1 = Except.ok (try_init g1).1) := by
  obtain ⟨a, m⟩ := g
  change a = some l0 at h
  subst h
  refine ⟨rfl, rfl, rfl, rfl, rfl, rfl, ?_⟩
  intro g1 h1
  obtain ⟨a1, m1⟩ := g1
  change a1 = none at h1
  subst h1
  exact ⟨rfl, rfl, rfl, rfl, rfl, rfl, rfl⟩

/-- C7 witness: a second installation attempt on a state that already holds a
backend named A returns the already-set error and keeps that backend. -/
theorem install_second_attempt_fails_witness :
    try_init
      { activeLogger := some (Logger.new "A"),
        maxLevel := LevelFilter.Off } =
      ({ activeLogger := some (Logger.new "A"), maxLevel := LevelFilter.Off },
       some SetLoggerError.alreadySet) :=
  (install_second_attempt_fails
    { activeLogger := some (Logger.new "A"), maxLevel := LevelFilter.Off }
    (Logger.new "A") "B" rfl).1

/-- C8: on every non-panicking `log` call: `flush` is a no-op, the name is
never changed, a logger whose handle was already initialized is left exactly
as it was (the handle is never written after the once-guard has completed),
a call that leaves the handle uninitialized changed nothing, the single
unset-to-set transition stores the handle returned by the registration call it
performs, and the either-unset-or-registered invariant is preserved. -/
theorem handle_write_once (s : LoggerState) (osHandle : HANDLE) (r : Record)
    (s1 : LoggerState) (calls : List OsCall)
    (h : Logger.log s osHandle r = Except.ok (s1, calls)) :
    Logger.flush s = (s, []) ∧
    s1.log_name = s.log_name ∧
    (s.handle_init = true → s1 = s) ∧
    (s1.handle_init = false → s1 = s) ∧
    (s.handle_init = false → s1.handle_init = true → s1.handle = osHandle ∧
      calls.head? = some (OsCall.registerEventSource s.log_name)) ∧
    ((s.handle_init = false → s.handle = nullHandle) →
      s1.handle_init = false → s1.handle = nullHandle) := by
  rcases log_cases s osHandle r with ⟨he1, hl⟩ | ⟨he1, hi, hm, hl⟩ |
      ⟨he1, hi, hn, hm, hl⟩ | ⟨he1, hi, hn, hl⟩ | ⟨he1, hd, hm, hl⟩ <;>
    rw [hl] at h
  · simp only [Except.ok.injEq, Prod.mk.injEq] at h
    obtain ⟨hs1, hcalls⟩ := h
    subst hs1
    subst hcalls
    refine ⟨rfl, rfl, fun _ => rfl, fun _ => rfl, ?_, ?_⟩
    · intro h0 h1
      rw [h0] at h1
      exact Bool.noConfusion h1
    · intro hfi h0
      exact hfi h0
  · simp only [Except.ok.injEq, Prod.mk.injEq] at h
    obtain ⟨hs1, hcalls⟩ := h
    subst hs1
    subst hcalls
    refine ⟨rfl, rfl, fun _ => rfl, fun _ => rfl, ?_, ?_⟩
    · intro h0
      rw [hi] at h0
      exact Bool.noConfusion h0
    · intro hfi h0
      exact hfi h0
  · simp only [Except.ok.injEq, Prod.mk.injEq] at h
    obtain ⟨hs1, hcalls⟩ := h
    subst hs1
    subst hcalls
    refine ⟨rfl, rfl, ?_, ?_, ?_, ?_⟩
    · intro h0
      rw [hi] at h0
      exact Bool.noConfusion h0
    · intro h0
      exact Bool.noConfusion h0
    · intro _ _
      exact ⟨rfl, rfl⟩
    · intro _ h0
      exact Bool.noConfusion h0
  · exact Except.noConfusion h
  · exact Except.noConfusion h

/-- C8 witness: the first enabled call on the fresh global logger stores the
handle the registration call returned, and that registration heads the
trace. -/
theorem handle_write_once_witness :
    ({ handle := 7, handle_init := true, log_name := "Rust Application" }
        : LoggerState).handle = 7 ∧
    ([OsCall.registerEventSource "Rust Application",
      OsCall.reportEvent 7 (eventTypeFor Level.Warn)
        "app.rs(42): WARN - disk low"] : List OsCall).head? =
      some (OsCall.registerEventSource "Rust Application") :=
  (handle_write_once LOGGER 7
    { level := Level.Warn, file := some "app.rs", line := some 42,
      msg := "disk low" }
    { handle := 7, handle_init := true, log_name := "Rust Application" }
    [OsCall.registerEventSource "Rust Application",
     OsCall.reportEvent 7 (eventTypeFor Level.Warn)
       "app.rs(42): WARN - disk low"]
    (by rfl)).2.2.2.2.1 rfl rfl

/-- C9: `log` panics exactly when the record is enabled and either the
formatted line has an interior NUL (wide-string conversion `unwrap`) or, on a
first enabled call, the source name has an interior NUL (`CString::new`
inside the once-guarded initializer); the name panic is precisely the
first-call-inside-the-guard case, and nothing else — in particular not the
registration handle returned by the OS, which is universally quantified here
and may be null — makes `log` fail. -/
theorem log_panics_iff_encoding_failure (s : LoggerState) (osHandle : HANDLE)
    (r : Record) :
    ((∃ e, Logger.log s osHandle r = Except.error e) ↔
      (Logger.enabled r.metadata = true ∧
        (hasNulChar (formatMsg r) = true ∨
          (s.handle_init = false ∧ hasNulChar s.log_name = true)))) ∧
    (Logger.log s osHandle r = Except.error PanicReason.nulInLogName ↔
      (Logger.enabled r.metadata = true ∧ s.handle_init = false ∧
        hasNulChar s.log_name = true)) := by
  cases he : Logger.enabled r.metadata with
  | false => simp [Logger.log, he]
  | true =>
    cases hi : s.handle_init with
    | true =>
      cases hm : hasNulChar (formatMsg r) with
      | false => simp [Logger.log, he, hi, hm]
      | true => simp [Logger.log, he, hi, hm]
    | false =>
      cases hn : hasNulChar s.log_name with
      | true => simp [Logger.log, he, hi, hn]
      | false =>
        cases hm : hasNulChar (formatMsg r) with
        | false => simp [Logger.log, he, hi, hn, hm]
        | true => simp [Logger.log, he, hi, hn, hm]

/-- C2: in the interleaving model of the `Once`-guarded initialization, every
reachable state shows the closure (name conversion plus registration plus
handle store) has run at most once, it has run exactly once just when a
unique owning thread is recorded, and every thread that has proceeded past
the initialization point read the fully-initialized handle — which also
forces the closure to have run exactly once by then. -/
theorem once_registration_exactly_once (osHandle : HANDLE) (s : MState)
    (h : MReach osHandle s) :
    s.initRuns ≤ 1 ∧
    (s.initRuns = 1 ↔ ∃ t, s.initOwner = some t) ∧
    (∀ t hv, s.pcs t = ThreadPC.pastInit hv →
      hv = osHandle ∧ s.initRuns = 1) := by
  obtain ⟨i1, i2, i3, i4, i5, i6, i7, i8⟩ := minv_reach h
  refine ⟨i1, ?_, ?_⟩
  · constructor
    · intro h1
      cases ho : s.initOwner with
      | none =>
        have h0 := i2.mpr ho
        omega
      | some t => exact ⟨t, rfl⟩
    · rintro ⟨t, ht⟩
      have h01 : s.initRuns = 0 ∨ s.initRuns = 1 := by omega
      cases h01 with
      | inl h0 =>
        have hn := i2.mp h0
        rw [hn] at ht
        exact Option.noConfusion ht
      | inr h1 => exact h1
  · intro t hv hpt
    exact i8 t hv hpt

/-- C2 witness: after the concrete five-step trace in which thread 0 wins the
guard, registers with the OS returning handle 7, and reads, and thread 1 then
passes through and reads, the closure ran exactly once and both readers saw
handle 7. -/
theorem once_registration_exactly_once_witness :
    mDemo5.initRuns ≤ 1 ∧
    (mDemo5.initRuns = 1 ↔ ∃ t, mDemo5.initOwner = some t) ∧
    (∀ t hv, mDemo5.pcs t = ThreadPC.pastInit hv →
      hv = 7 ∧ mDemo5.initRuns = 1) :=
  once_registration_exactly_once 7 mDemo5
    (MReach.step
      (MReach.step
        (MReach.step
          (MReach.step
            (MReach.step MReach.refl (MStep.enter 0 initMState rfl rfl))
            (MStep.runBody 0 mDemo1 rfl rfl))
          (MStep.read 0 mDemo2 rfl))
        (MStep.skip 1 mDemo3 rfl rfl))
      (MStep.read 1 mDemo4 rfl))

end WinServiceLogger
